import Mathlib

/-!
# Verification of BLEHeartRateMonitor.cpp

A shallow embedding of the heart-rate monitoring DLL in
src/BLEHeartRateMonitor.cpp: the platform DataReader used by the
notification decode, the ValueChanged lambda, the worker thread
BleWorkerLogic as a trace of observable events, and the exported control
surface StartHrMonitoring / StopHrMonitoring / GetCurrentStatus as
functions on an explicit controller state.  Status messages are strings
in the source; only the numeric status codes are modelled here.
-/

namespace BLEHR

/-- Byte order a platform DataReader uses when assembling multi-byte
reads. -/
inductive ByteOrder
  | bigEndian
  | littleEndian
  deriving DecidableEq

/-- Model of Windows.Storage.Streams.DataReader: a byte buffer, a read
position, and the byte order used for multi-byte reads. -/
structure DataReader where
  buffer : List Nat
  pos : Nat
  byteOrder : ByteOrder
  deriving DecidableEq

/-- DataReader.FromBuffer.  The platform documents that a fresh
DataReader defaults to big-endian byte order, and the source never sets
reader.ByteOrder, so multi-byte reads in the source use big-endian. -/
def DataReader.fromBuffer (b : List Nat) : DataReader :=
  DataReader.mk b 0 ByteOrder.bigEndian

/-- DataReader.ReadByte: returns the byte at the current position and
advances, or raises past the end of the buffer (modelled as an error). -/
def DataReader.readByte (r : DataReader) : Except Unit (Nat × DataReader) :=
  match r.buffer[r.pos]? with
  | some b => Except.ok (b, DataReader.mk r.buffer (r.pos + 1) r.byteOrder)
  | none => Except.error ()

/-- DataReader.ReadUInt16: reads two bytes and assembles them according
to the reader byte order, or raises past the end of the buffer. -/
def DataReader.readUInt16 (r : DataReader) : Except Unit (Nat × DataReader) :=
  match r.buffer[r.pos]?, r.buffer[r.pos + 1]? with
  | some b0, some b1 =>
      Except.ok
        ((match r.byteOrder with
          | ByteOrder.bigEndian => b0 * 256 + b1
          | ByteOrder.littleEndian => b0 + b1 * 256),
         DataReader.mk r.buffer (r.pos + 2) r.byteOrder)
  | _, _ => Except.error ()

/-- The status code the source reports for runtime errors (99). -/
def runtimeErrorCode : Int := 99

/-- What one run of the ValueChanged lambda produces: the heart-rate
callbacks it fires, the status callbacks it fires, and whether it writes
the shared stop flag (it never does). -/
structure HandlerResult where
  hrEvents : List Nat
  statusEvents : List Int
  stopRequested : Bool
  deriving DecidableEq

/-- The ValueChanged lambda (BLEHeartRateMonitor.cpp lines 106-119):
read a flags byte, then a 16-bit value when flags bit 0 is set else a
single byte, and fire the heart-rate callback; a reader error
(hresult_error) is caught and reported as status 99. -/
def handleValueChanged (payload : List Nat) : HandlerResult :=
  match (DataReader.fromBuffer payload).readByte with
  | Except.error _ =>
      HandlerResult.mk [] [runtimeErrorCode] false
  | Except.ok (flags, r) =>
      match (if flags % 2 = 1 then r.readUInt16 else r.readByte) with
      | Except.ok (rate, _) => HandlerResult.mk [rate] [] false
      | Except.error _ => HandlerResult.mk [] [runtimeErrorCode] false

/-- A payload is malformed when it is shorter than the flags byte plus
the value width its flags bit 0 demands. -/
def isMalformed (p : List Nat) : Bool :=
  p.length < (if p.headD 0 % 2 = 1 then 3 else 2)

/-- How far the try block of BleWorkerLogic progresses before an
exception, or whether it reaches the monitoring loop. -/
inductive Phase
  | noDevice
  | deviceNull
  | serviceNotFound
  | charNotFound
  | subscribeFailed
  | monitoring
  deriving DecidableEq

/-- Which of the four cleanup calls raises an hresult_error. -/
structure CleanupErrs where
  unregValueChangedErr : Bool
  writeNoneErr : Bool
  unregConnErr : Bool
  closeErr : Bool
  deriving DecidableEq

/-- One execution environment for BleWorkerLogic: how far the session
progresses, whether the device reports Connected right away, the
notification payloads delivered while monitoring, whether the device
disconnects (which sets the stop flag), and which cleanup calls fail. -/
structure Env where
  phase : Phase
  initiallyConnected : Bool
  notifications : List (List Nat)
  disconnect : Bool
  cleanup : CleanupErrs
  deriving DecidableEq

/-- Observable events of one worker execution: status callbacks,
heart-rate callbacks, the four cleanup calls, and the two final
handle releases (the nullptr assignments). -/
inductive Ev
  | status (code : Int)
  | hr (bpm : Nat)
  | unregValueChanged
  | writeCccdNone
  | unregConnStatus
  | closeDevice
  | releaseDevice
  | releaseChar
  deriving DecidableEq

/-- bleDevice is non-null from FromIdAsync success onward. -/
def Env.hasDevice (e : Env) : Bool :=
  match e.phase with
  | Phase.noDevice => false
  | Phase.deviceNull => false
  | _ => true

/-- hrCharacteristic is non-null from characteristic resolution success
onward. -/
def Env.hasChar (e : Env) : Bool :=
  match e.phase with
  | Phase.subscribeFailed => true
  | Phase.monitoring => true
  | _ => false

/-- The CCCD Notify write succeeded, i.e. the run reached Monitoring. -/
def Env.subscribed (e : Env) : Bool :=
  match e.phase with
  | Phase.monitoring => true
  | _ => false

/-- Events fired by one ValueChanged invocation. -/
def handlerEvents (p : List Nat) : List Ev :=
  (handleValueChanged p).hrEvents.map Ev.hr
    ++ (handleValueChanged p).statusEvents.map Ev.status

/-- Events fired while the monitoring loop runs: one handler run per
delivered notification, in arrival order. -/
def monitorEvents : List (List Nat) → List Ev
  | [] => []
  | p :: ps => handlerEvents p ++ monitorEvents ps

/-- The extra status 2 report when the device is not yet Connected after
FromIdAsync (line 82). -/
def waitEvents (initiallyConnected : Bool) : List Ev :=
  if initiallyConnected then [] else [Ev.status 2]

/-- Events of the try block of BleWorkerLogic (lines 52-142): the status
reports of each stage, the monitoring-loop events, and the status 99
report of the catch handlers when a stage throws. -/
def tryEvents (e : Env) : List Ev :=
  match e.phase with
  | Phase.noDevice => [Ev.status 1, Ev.status 99]
  | Phase.deviceNull => [Ev.status 1, Ev.status 2, Ev.status 99]
  | Phase.serviceNotFound =>
      [Ev.status 1, Ev.status 2] ++ waitEvents e.initiallyConnected
        ++ [Ev.status 3, Ev.status 99]
  | Phase.charNotFound =>
      [Ev.status 1, Ev.status 2] ++ waitEvents e.initiallyConnected
        ++ [Ev.status 3, Ev.status 99]
  | Phase.subscribeFailed =>
      [Ev.status 1, Ev.status 2] ++ waitEvents e.initiallyConnected
        ++ [Ev.status 3, Ev.status 4, Ev.status 99]
  | Phase.monitoring =>
      [Ev.status 1, Ev.status 2] ++ waitEvents e.initiallyConnected
        ++ [Ev.status 3, Ev.status 4, Ev.status 10]
        ++ monitorEvents e.notifications
        ++ (if e.disconnect then [Ev.status 5] else [])
        ++ [Ev.status 11]

/-- The cleanup calls the cleanup block would attempt, with the error
flag of each: guarded by the non-null checks on hrCharacteristic and
bleDevice, in source order (lines 146-155). -/
def cleanupSteps (e : Env) : List (Ev × Bool) :=
  (if e.hasChar then
     [(Ev.unregValueChanged, e.cleanup.unregValueChangedErr),
      (Ev.writeCccdNone, e.cleanup.writeNoneErr)]
   else [])
  ++ (if e.hasDevice then
       [(Ev.unregConnStatus, e.cleanup.unregConnErr),
        (Ev.closeDevice, e.cleanup.closeErr)]
     else [])

/-- Run a step list inside the single try/catch of the cleanup block:
each step either completes (its event is emitted) or raises, in which
case the remaining steps are skipped and the catch reports status 98. -/
def runSteps : List (Ev × Bool) → List Ev
  | [] => []
  | (ev, err) :: rest => if err then [Ev.status 98] else ev :: runSteps rest

/-- Whether some step of a step list raises. -/
def stepsRaise : List (Ev × Bool) → Bool
  | [] => false
  | (_, err) :: rest => err || stepsRaise rest

/-- Events of the cleanup block (lines 144-164). -/
def cleanupEvents (e : Env) : List Ev := runSteps (cleanupSteps e)

/-- Whether the cleanup block of this execution raises. -/
def Env.cleanupRaises (e : Env) : Bool := stepsRaise (cleanupSteps e)

/-- Events after the try block: the cleanup block, the two nullptr
releases, and the final status 0 report (lines 144-169). -/
def workerTail (e : Env) : List Ev :=
  cleanupEvents e ++ [Ev.releaseDevice, Ev.releaseChar, Ev.status 0]

/-- The whole observable trace of one BleWorkerLogic execution. -/
def workerTrace (e : Env) : List Ev := tryEvents e ++ workerTail e

/-- Events emitted by the session stages and the notification handler:
status and heart-rate callbacks only, never cleanup or release events. -/
def Ev.isSession : Ev → Bool
  | Ev.status _ => true
  | Ev.hr _ => true
  | _ => false

/-- Index of the first occurrence of an event in a trace (trace length
when absent). -/
def evIdx : List Ev → Ev → Nat
  | [], _ => 0
  | x :: xs, a => if x = a then 0 else evIdx xs a + 1

/-- In trace l, whenever b occurs, a occurs and its first occurrence is
strictly before the first occurrence of b. -/
def precedes (a b : Ev) (l : List Ev) : Prop :=
  b ∈ l → a ∈ l ∧ evIdx l a < evIdx l b

instance precedesDecidable (a b : Ev) (l : List Ev) : Decidable (precedes a b l) :=
  if hb : b ∈ l then
    if h : a ∈ l ∧ evIdx l a < evIdx l b then Decidable.isTrue (fun _ => h)
    else Decidable.isFalse (fun hp => h (hp hb))
  else Decidable.isTrue (fun hmem => absurd hmem hb)

/-- The status codes of a trace, in emission order (the successive
g_currentState writes of ReportStatus). -/
def traceStatuses (l : List Ev) : List Int :=
  l.filterMap (fun ev =>
    match ev with
    | Ev.status c => some c
    | _ => none)

/-- The monitoring-phase cleanup tail for given cleanup errors: both
handles are non-null, so all four cleanup steps are attempted. -/
def monTail (c : CleanupErrs) : List Ev :=
  runSteps
    [(Ev.unregValueChanged, c.unregValueChangedErr),
     (Ev.writeCccdNone, c.writeNoneErr),
     (Ev.unregConnStatus, c.unregConnErr),
     (Ev.closeDevice, c.closeErr)]
  ++ [Ev.releaseDevice, Ev.releaseChar, Ev.status 0]

/-- State shared between the host thread and the worker: whether the
std thread object is joinable, whether the worker function is still
running, the stop flag, the last reported status, and how many workers
were ever spawned. -/
structure SysState where
  joinable : Bool
  workerAlive : Bool
  shouldStop : Bool
  currentState : Int
  workers : Nat
  deriving DecidableEq

/-- The state after InitializePlugin with no worker ever started. -/
def initState : SysState :=
  SysState.mk false false false 0 0

/-- Apply a sequence of ReportStatus writes to g_currentState. -/
def applyStatuses (s : SysState) (cs : List Int) : SysState :=
  cs.foldl (fun st c => SysState.mk st.joinable st.workerAlive st.shouldStop c st.workers) s

/-- The worker function runs to completion: its ReportStatus writes are
applied and the thread function returns.  The std thread object stays
joinable until someone joins it. -/
def workerFinish (e : Env) (s : SysState) : SysState :=
  let s1 := applyStatuses s (traceStatuses (workerTrace e))
  SysState.mk s1.joinable false s1.shouldStop s1.currentState s1.workers

/-- StartHrMonitoring (lines 213-228): refuse when the thread object is
joinable; otherwise clear the stop flag and spawn the worker, reporting
status 99 and returning -2 when thread creation throws. -/
def startHrMonitoring (spawnFails : Bool) (s : SysState) : Int × SysState :=
  if s.joinable then (-1, s)
  else
    if spawnFails then
      (-2, SysState.mk s.joinable s.workerAlive false runtimeErrorCode s.workers)
    else
      (0, SysState.mk true true false s.currentState (s.workers + 1))

/-- StopHrMonitoring (lines 230-249): refuse when the thread object is
not joinable; otherwise set the stop flag and join, which waits for the
worker function to finish; a join error is reported as status 98 and
returned as -2. -/
def stopHrMonitoring (joinFails : Bool) (e : Env) (s : SysState) : Int × SysState :=
  if s.joinable = false then (-1, s)
  else
    let s1 := SysState.mk s.joinable s.workerAlive true s.currentState s.workers
    let s2 := if s1.workerAlive then workerFinish e s1 else s1
    if joinFails then
      (-2, SysState.mk s2.joinable s2.workerAlive s2.shouldStop 98 s2.workers)
    else
      (0, SysState.mk false s2.workerAlive s2.shouldStop s2.currentState s2.workers)

/-- GetCurrentStatus (lines 252-254): read the last reported status. -/
def getCurrentStatus (s : SysState) : Int := s.currentState

/-- The worker exits without a host stop request: it either never
reaches the monitoring loop or leaves it because the device
disconnected. -/
def Env.exitsWithoutHostStop (e : Env) : Bool :=
  (decide (e.phase ≠ Phase.monitoring)) || e.disconnect

/-- Happy-path environment: monitoring is reached, three notifications
arrive, the host stops the session, cleanup raises nothing. -/
def envHappy : Env :=
  Env.mk Phase.monitoring true [[0, 72], [1, 128, 0], [0, 65]] false
    (CleanupErrs.mk false false false false)

/-- Like envHappy but the CCCD disable write in cleanup raises. -/
def envWriteNoneFails : Env :=
  Env.mk Phase.monitoring true [] false
    (CleanupErrs.mk false true false false)

/-- Environment where discovery finds no device. -/
def envNoDevice : Env :=
  Env.mk Phase.noDevice true [] false
    (CleanupErrs.mk false false false false)

/-- Like envHappy but the ValueChanged unregistration raises during
cleanup. -/
def envUnregValueChangedFails : Env :=
  Env.mk Phase.monitoring true [] false
    (CleanupErrs.mk true false false false)

/-! ## Helper lemmas -/

theorem concat_getLast {α : Type} (l : List α) (x : α) :
    (l ++ [x]).getLast? = some x := by
  induction l with
  | nil => rfl
  | cons y ys ih =>
      cases ys with
      | nil => rfl
      | cons z zs =>
          rw [List.cons_append, List.cons_append, List.getLast?_cons_cons]
          exact ih

theorem handlerEvents_isSession (p : List Nat) (x : Ev)
    (h : x ∈ handlerEvents p) : x.isSession = true := by
  unfold handlerEvents at h
  rcases List.mem_append.mp h with h1 | h1
  · obtain ⟨y, _, rfl⟩ := List.mem_map.mp h1
    rfl
  · obtain ⟨y, _, rfl⟩ := List.mem_map.mp h1
    rfl

theorem monitorEvents_isSession (ns : List (List Nat)) (x : Ev)
    (h : x ∈ monitorEvents ns) : x.isSession = true := by
  induction ns with
  | nil => simp [monitorEvents] at h
  | cons p ps ih =>
      rcases List.mem_append.mp h with h1 | h1
      · exact handlerEvents_isSession p x h1
      · exact ih h1

theorem tryEvents_isSession (e : Env) (x : Ev)
    (h : x ∈ tryEvents e) : x.isSession = true := by
  unfold tryEvents at h
  cases hph : e.phase <;> rw [hph] at h <;>
    simp only [List.mem_append, List.mem_cons, List.mem_singleton,
      List.not_mem_nil, or_false, false_or, waitEvents] at h
  case noDevice =>
    rcases h with rfl | rfl <;> rfl
  case deviceNull =>
    rcases h with rfl | rfl | rfl <;> rfl
  case serviceNotFound =>
    rcases h with ((rfl | rfl) | h1) | rfl | rfl
    · rfl
    · rfl
    · cases hic : e.initiallyConnected <;> rw [hic] at h1 <;> simp at h1
      rw [h1]; rfl
    · rfl
    · rfl
  case charNotFound =>
    rcases h with ((rfl | rfl) | h1) | rfl | rfl
    · rfl
    · rfl
    · cases hic : e.initiallyConnected <;> rw [hic] at h1 <;> simp at h1
      rw [h1]; rfl
    · rfl
    · rfl
  case subscribeFailed =>
    rcases h with ((rfl | rfl) | h1) | rfl | rfl | rfl
    · rfl
    · rfl
    · cases hic : e.initiallyConnected <;> rw [hic] at h1 <;> simp at h1
      rw [h1]; rfl
    · rfl
    · rfl
    · rfl
  case monitoring =>
    rcases h with (((((rfl | rfl) | h1) | rfl | rfl | rfl) | h2) | h3) | rfl
    · rfl
    · rfl
    · cases hic : e.initiallyConnected <;> rw [hic] at h1 <;> simp at h1
      rw [h1]; rfl
    · rfl
    · rfl
    · rfl
    · exact monitorEvents_isSession e.notifications x h2
    · cases hd : e.disconnect <;> rw [hd] at h3 <;> simp at h3
      rw [h3]; rfl
    · rfl

theorem evIdx_append (A B : List Ev) (a : Ev) (h : a ∉ A) :
    evIdx (A ++ B) a = A.length + evIdx B a := by
  induction A with
  | nil => simp [evIdx]
  | cons x xs ih =>
      have hxa : x ≠ a := fun he => h (he ▸ List.mem_cons_self x xs)
      have hmem : a ∉ xs := fun hx => h (List.mem_cons_of_mem x hx)
      rw [List.cons_append]
      show (if x = a then 0 else evIdx (xs ++ B) a + 1) = (x :: xs).length + evIdx B a
      rw [if_neg hxa, ih hmem, List.length_cons]
      omega

theorem precedes_append (A B : List Ev) (a b : Ev)
    (hA : ∀ x ∈ A, x.isSession = true)
    (ha : a.isSession = false) (hb : b.isSession = false)
    (h : precedes a b B) : precedes a b (A ++ B) := by
  intro hmem
  have haA : a ∉ A := fun hx => by rw [hA a hx] at ha; exact Bool.noConfusion ha
  have hbA : b ∉ A := fun hx => by rw [hA b hx] at hb; exact Bool.noConfusion hb
  have hbB : b ∈ B := by
    rcases List.mem_append.mp hmem with h1 | h1
    · exact absurd h1 hbA
    · exact h1
  obtain ⟨haB, hlt⟩ := h hbB
  refine ⟨List.mem_append_right _ haB, ?_⟩
  rw [evIdx_append A B a haA, evIdx_append A B b hbA]
  omega

theorem runSteps_noErr (s : List (Ev × Bool)) (h : stepsRaise s = false) :
    runSteps s = s.map Prod.fst := by
  induction s with
  | nil => rfl
  | cons p rest ih =>
      obtain ⟨ev, err⟩ := p
      rw [stepsRaise] at h
      rcases Bool.or_eq_false_iff.mp h with ⟨h1, h2⟩
      rw [runSteps, if_neg (by rw [h1]; exact Bool.false_ne_true), ih h2]
      rfl

theorem stepsRaise_mem98 (s : List (Ev × Bool)) (h : stepsRaise s = true) :
    Ev.status 98 ∈ runSteps s := by
  induction s with
  | nil => exact absurd h (by rw [stepsRaise]; exact Bool.false_ne_true)
  | cons p rest ih =>
      obtain ⟨ev, err⟩ := p
      rw [runSteps]
      cases herr : err with
      | true => rw [if_pos rfl]; exact List.mem_singleton.mpr rfl
      | false =>
          rw [if_neg Bool.false_ne_true]
          rw [stepsRaise, herr, Bool.false_or] at h
          exact List.mem_cons_of_mem ev (ih h)

theorem traceStatuses_append (l1 l2 : List Ev) :
    traceStatuses (l1 ++ l2) = traceStatuses l1 ++ traceStatuses l2 := by
  unfold traceStatuses
  exact List.filterMap_append l1 l2 _

theorem workerTrace_getLast (e : Env) :
    (workerTrace e).getLast? = some (Ev.status 0) := by
  unfold workerTrace workerTail
  rw [show tryEvents e ++ (cleanupEvents e ++ [Ev.releaseDevice, Ev.releaseChar, Ev.status 0])
        = (tryEvents e ++ cleanupEvents e ++ [Ev.releaseDevice, Ev.releaseChar]) ++ [Ev.status 0] by
      simp [List.append_assoc]]
  exact concat_getLast _ _

theorem traceStatuses_workerTrace_getLast (e : Env) :
    (traceStatuses (workerTrace e)).getLast? = some 0 := by
  unfold workerTrace workerTail
  rw [show tryEvents e ++ (cleanupEvents e ++ [Ev.releaseDevice, Ev.releaseChar, Ev.status 0])
        = (tryEvents e ++ cleanupEvents e ++ [Ev.releaseDevice, Ev.releaseChar]) ++ [Ev.status 0] by
      simp [List.append_assoc]]
  rw [traceStatuses_append]
  rw [show traceStatuses [Ev.status 0] = [(0 : Int)] from rfl]
  exact concat_getLast _ _

theorem applyStatuses_joinable (s : SysState) (cs : List Int) :
    (applyStatuses s cs).joinable = s.joinable := by
  induction cs generalizing s with
  | nil => rfl
  | cons c rest ih => exact ih _

theorem applyStatuses_workerAlive (s : SysState) (cs : List Int) :
    (applyStatuses s cs).workerAlive = s.workerAlive := by
  induction cs generalizing s with
  | nil => rfl
  | cons c rest ih => exact ih _

theorem applyStatuses_shouldStop (s : SysState) (cs : List Int) :
    (applyStatuses s cs).shouldStop = s.shouldStop := by
  induction cs generalizing s with
  | nil => rfl
  | cons c rest ih => exact ih _

theorem applyStatuses_workers (s : SysState) (cs : List Int) :
    (applyStatuses s cs).workers = s.workers := by
  induction cs generalizing s with
  | nil => rfl
  | cons c rest ih => exact ih _

theorem applyStatuses_currentState (s : SysState) (cs : List Int) :
    (applyStatuses s cs).currentState = cs.foldl (fun _ c => c) s.currentState := by
  induction cs generalizing s with
  | nil => rfl
  | cons c rest ih => exact ih _

theorem foldl_keepLast {α : Type} (x : α) (l : List α) (y : α) :
    (l ++ [y]).foldl (fun _ c => c) x = y := by
  rw [List.foldl_append]
  rfl

theorem workerStatuses_decomp (e : Env) :
    traceStatuses (workerTrace e) =
      traceStatuses (tryEvents e ++ cleanupEvents e ++ [Ev.releaseDevice, Ev.releaseChar])
        ++ [(0 : Int)] := by
  unfold workerTrace workerTail
  rw [show tryEvents e ++ (cleanupEvents e ++ [Ev.releaseDevice, Ev.releaseChar, Ev.status 0])
        = (tryEvents e ++ cleanupEvents e ++ [Ev.releaseDevice, Ev.releaseChar]) ++ [Ev.status 0] by
      simp [List.append_assoc]]
  rw [traceStatuses_append]
  rfl

/-! ## Claim theorems: the notification decode -/

/-- Claim C1 (code bug evidence): on the payload (0x01, 0x80, 0x00) the
decode step of the ValueChanged handler passes 32768 to the heart-rate
callback, because the DataReader the source builds keeps the platform
default big-endian byte order; the claimed little-endian reading of
bytes 1-2 would give 128. -/
theorem c1_decode_is_big_endian :
    handleValueChanged [1, 128, 0] = HandlerResult.mk [32768] [] false
    ∧ (DataReader.fromBuffer [1, 128, 0]).byteOrder = ByteOrder.bigEndian
    ∧ (32768 : Nat) ≠ 128 := by
  decide

/-- Claim C2 counterexample: for the malformed payload (0x01, 0x80) the
handler drops the sample but emits status 99 through the status
callback, the very code the session reports for fatal runtime errors,
so a status is emitted and it is the fatal one. -/
theorem c2_counterexample :
    (handleValueChanged [1, 128]).statusEvents = [runtimeErrorCode]
    ∧ (handleValueChanged [1, 128]).statusEvents ≠ []
    ∧ (handleValueChanged [1, 128]).hrEvents = [] := by
  decide

/-- Claim C2 (amended): for every malformed payload the decode fails,
the sample is dropped (no heart-rate event), the handler does not set
the stop flag, and later notifications are still processed unchanged,
but a status 99 report is emitted for the failure. -/
theorem c2_decode_error_nonterminating (p : List Nat)
    (h : isMalformed p = true) :
    handleValueChanged p = HandlerResult.mk [] [runtimeErrorCode] false
    ∧ ∀ pre post, monitorEvents (pre ++ p :: post) =
        monitorEvents pre ++ Ev.status runtimeErrorCode :: monitorEvents post := by
  have hmain : handleValueChanged p = HandlerResult.mk [] [runtimeErrorCode] false := by
    cases p with
    | nil => rfl
    | cons b0 rest =>
        rw [isMalformed] at h
        simp only [List.headD_cons, List.length_cons, decide_eq_true_eq] at h
        by_cases hb : b0 % 2 = 1
        · rw [if_pos hb] at h
          have hlen : rest.length < 2 := by omega
          have h2 : rest[1]? = none := by
            rw [List.getElem?_eq_none_iff]
            omega
          unfold handleValueChanged DataReader.fromBuffer DataReader.readByte
          simp only [List.getElem?_cons_zero]
          rw [if_pos hb]
          unfold DataReader.readUInt16
          simp only [List.getElem?_cons_succ, h2]
          cases hr0 : rest[0]? with
          | none => rfl
          | some v => rfl
        · rw [if_neg hb] at h
          have hrest : rest = [] := List.eq_nil_of_length_eq_zero (by omega)
          subst hrest
          unfold handleValueChanged DataReader.fromBuffer DataReader.readByte
          simp only [List.getElem?_cons_zero]
          rw [if_neg hb]
          rfl
  refine ⟨hmain, ?_⟩
  intro pre post
  induction pre with
  | nil =>
      show handlerEvents p ++ monitorEvents post = _
      rw [handlerEvents, hmain]
      rfl
  | cons q qs ih =>
      show handlerEvents q ++ monitorEvents (qs ++ p :: post)
          = (handlerEvents q ++ monitorEvents qs) ++ Ev.status runtimeErrorCode :: monitorEvents post
      rw [ih, List.append_assoc]

/-- Claim C2 amended, concrete instance: payload (0x01, 0x80) is
dropped with a status 99 report, and a well-formed notification
delivered after it is still decoded. -/
theorem c2_witness :
    handleValueChanged [1, 128] = HandlerResult.mk [] [runtimeErrorCode] false
    ∧ monitorEvents [[0, 72], [1, 128], [0, 65]] =
        monitorEvents [[0, 72]] ++ Ev.status runtimeErrorCode :: monitorEvents [[0, 65]] := by
  have h := c2_decode_error_nonterminating [1, 128] (by decide)
  exact ⟨h.1, h.2 [[0, 72]] [[0, 65]]⟩

/-- Claim C9: for every payload whose flags byte has bit 0 clear, the
handler passes the single unsigned byte at offset 1 to the heart-rate
callback, a value in the range 0-255. -/
theorem c9_decode_single_byte (b0 b1 : Nat) (rest : List Nat)
    (hflags : b0 % 2 = 0) (hbyte : b1 < 256) :
    handleValueChanged (b0 :: b1 :: rest) = HandlerResult.mk [b1] [] false
    ∧ b1 ≤ 255 := by
  refine ⟨?_, by omega⟩
  have hb : ¬ b0 % 2 = 1 := by omega
  unfold handleValueChanged DataReader.fromBuffer DataReader.readByte
  simp only [List.getElem?_cons_zero]
  rw [if_neg hb]
  simp only [List.getElem?_cons_succ, List.getElem?_cons_zero]

/-- Claim C9, concrete instance: payload (0x00, 72) decodes to 72. -/
theorem c9_witness :
    handleValueChanged [0, 72] = HandlerResult.mk [72] [] false
    ∧ (72 : Nat) ≤ 255 := by
  have h := c9_decode_single_byte 0 72 [] (by decide) (by decide)
  exact ⟨h.1, h.2⟩

/-! ## Claim theorems: the worker cleanup -/

theorem count_tryEvents_zero (e : Env) (a : Ev) (ha : a.isSession = false) :
    (tryEvents e).count a = 0 :=
  List.count_eq_zero.mpr (fun h => by
    rw [tryEvents_isSession e a h] at ha
    exact Bool.noConfusion ha)

theorem monTail_order (c : CleanupErrs) :
    precedes Ev.writeCccdNone Ev.closeDevice (monTail c)
    ∧ precedes Ev.unregConnStatus Ev.closeDevice (monTail c) := by
  obtain ⟨c1, c2, c3, c4⟩ := c
  cases c1 <;> cases c2 <;> cases c3 <;> cases c4 <;> decide

theorem monTail_order_noErr (c : CleanupErrs)
    (h1 : c.unregValueChangedErr = false) (h2 : c.writeNoneErr = false)
    (h3 : c.unregConnErr = false) (h4 : c.closeErr = false) :
    precedes Ev.unregValueChanged Ev.releaseChar (monTail c)
    ∧ precedes Ev.unregConnStatus Ev.releaseDevice (monTail c) := by
  obtain ⟨c1, c2, c3, c4⟩ := c
  subst h1 h2 h3 h4
  decide

theorem workerTail_eq_monTail (e : Env) (h : e.phase = Phase.monitoring) :
    workerTail e = monTail e.cleanup := by
  unfold workerTail monTail cleanupEvents cleanupSteps Env.hasChar Env.hasDevice
  rw [h]
  rfl

theorem cleanupRaises_monitoring (e : Env) (h : e.phase = Phase.monitoring) :
    e.cleanupRaises =
      (e.cleanup.unregValueChangedErr
        || (e.cleanup.writeNoneErr
          || (e.cleanup.unregConnErr || (e.cleanup.closeErr || false)))) := by
  unfold Env.cleanupRaises cleanupSteps Env.hasChar Env.hasDevice
  rw [h]
  rfl

/-- Claim C3 counterexample: in a run that reached Monitoring (both
handles acquired) where the notification-descriptor disable write
raises during cleanup, the device is never closed and the
disconnect-status callback is never unregistered, so not every acquired
resource is released when the cleanup phase itself raises. -/
theorem c3_counterexample :
    envWriteNoneFails.hasDevice = true
    ∧ envWriteNoneFails.subscribed = true
    ∧ Ev.closeDevice ∉ workerTrace envWriteNoneFails
    ∧ Ev.unregConnStatus ∉ workerTrace envWriteNoneFails
    ∧ Ev.writeCccdNone ∉ workerTrace envWriteNoneFails := by
  decide

/-- Claim C3 (amended): when the cleanup phase raises no error, each
resource the session acquired is released exactly once before the
worker returns; a cleanup error instead skips the remaining cleanup
steps, because one try/catch wraps the whole cleanup sequence. -/
theorem c3_release_exactly_once (e : Env) (hok : e.cleanupRaises = false) :
    (e.hasChar = true →
      (workerTrace e).count Ev.unregValueChanged = 1
      ∧ (workerTrace e).count Ev.writeCccdNone = 1)
    ∧ (e.hasDevice = true →
      (workerTrace e).count Ev.unregConnStatus = 1
      ∧ (workerTrace e).count Ev.closeDevice = 1)
    ∧ (workerTrace e).count Ev.releaseDevice = 1
    ∧ (workerTrace e).count Ev.releaseChar = 1 := by
  have hsplit : ∀ a : Ev, a.isSession = false →
      (workerTrace e).count a = (workerTail e).count a := by
    intro a ha
    show (tryEvents e ++ workerTail e).count a = _
    rw [List.count_append, count_tryEvents_zero e a ha, Nat.zero_add]
  have htail : workerTail e
      = ((if e.hasChar then [Ev.unregValueChanged, Ev.writeCccdNone] else [])
          ++ (if e.hasDevice then [Ev.unregConnStatus, Ev.closeDevice] else []))
        ++ [Ev.releaseDevice, Ev.releaseChar, Ev.status 0] := by
    show cleanupEvents e ++ _ = _
    rw [cleanupEvents, runSteps_noErr _ hok]
    congr 1
    unfold cleanupSteps
    cases hc : e.hasChar <;> cases hd : e.hasDevice <;> rfl
  refine ⟨?_, ?_, ?_, ?_⟩
  · intro hc
    constructor
    · rw [hsplit Ev.unregValueChanged rfl, htail, hc]
      cases hd : e.hasDevice <;> decide
    · rw [hsplit Ev.writeCccdNone rfl, htail, hc]
      cases hd : e.hasDevice <;> decide
  · intro hd
    constructor
    · rw [hsplit Ev.unregConnStatus rfl, htail, hd]
      cases hc : e.hasChar <;> decide
    · rw [hsplit Ev.closeDevice rfl, htail, hd]
      cases hc : e.hasChar <;> decide
  · rw [hsplit Ev.releaseDevice rfl, htail]
    cases hc : e.hasChar <;> cases hd : e.hasDevice <;> decide
  · rw [hsplit Ev.releaseChar rfl, htail]
    cases hc : e.hasChar <;> cases hd : e.hasDevice <;> decide

/-- Claim C3 amended, concrete instance: the happy-path run releases
the device, the subscription and the handles exactly once. -/
theorem c3_witness :
    (workerTrace envHappy).count Ev.closeDevice = 1
    ∧ (workerTrace envHappy).count Ev.writeCccdNone = 1
    ∧ (workerTrace envHappy).count Ev.releaseDevice = 1 := by
  have h := c3_release_exactly_once envHappy (by decide)
  exact ⟨(h.2.1 (by decide)).2, (h.1 (by decide)).2, h.2.2.1⟩

/-- Claim C6 counterexample: in a subscribed run where the ValueChanged
unregistration raises during cleanup, the handles are still released by
the nullptr assignments while neither event callback was ever
unregistered, so the unregistrations do not happen before the releases
of the handles they reference. -/
theorem c6_counterexample :
    envUnregValueChangedFails.subscribed = true
    ∧ Ev.releaseChar ∈ workerTrace envUnregValueChangedFails
    ∧ Ev.unregValueChanged ∉ workerTrace envUnregValueChangedFails
    ∧ Ev.releaseDevice ∈ workerTrace envUnregValueChangedFails
    ∧ Ev.unregConnStatus ∉ workerTrace envUnregValueChangedFails := by
  decide

/-- Claim C6 (amended): in every subscribed run, whenever the device
close happens at all, the CCCD None write and the disconnect-status
unregistration happen strictly before it; when the cleanup phase raises
no error, the value-change and disconnect-status unregistrations also
happen strictly before the releases of the handles they reference; and
a device-initiated disconnect run executes exactly the same cleanup
tail as a host-stop run. -/
theorem c6_cleanup_order (e : Env) (hsub : e.subscribed = true) :
    precedes Ev.writeCccdNone Ev.closeDevice (workerTrace e)
    ∧ precedes Ev.unregConnStatus Ev.closeDevice (workerTrace e)
    ∧ (e.cleanupRaises = false →
        precedes Ev.unregValueChanged Ev.releaseChar (workerTrace e)
        ∧ precedes Ev.unregConnStatus Ev.releaseDevice (workerTrace e))
    ∧ ∀ d : Bool,
        workerTail (Env.mk e.phase e.initiallyConnected e.notifications d e.cleanup)
          = workerTail e := by
  have hph : e.phase = Phase.monitoring := by
    cases h : e.phase <;>
      first
        | rfl
        | (unfold Env.subscribed at hsub; rw [h] at hsub; exact Bool.noConfusion hsub)
  have htail : workerTail e = monTail e.cleanup := workerTail_eq_monTail e hph
  have hsess : ∀ x ∈ tryEvents e, x.isSession = true :=
    fun x hx => tryEvents_isSession e x hx
  obtain ⟨h1, h2⟩ := monTail_order e.cleanup
  refine ⟨?_, ?_, ?_, fun d => rfl⟩
  · exact precedes_append (tryEvents e) (workerTail e) _ _ hsess rfl rfl
      (by rw [htail]; exact h1)
  · exact precedes_append (tryEvents e) (workerTail e) _ _ hsess rfl rfl
      (by rw [htail]; exact h2)
  · intro hok
    rw [cleanupRaises_monitoring e hph] at hok
    rcases Bool.or_eq_false_iff.mp hok with ⟨e1, hok⟩
    rcases Bool.or_eq_false_iff.mp hok with ⟨e2, hok⟩
    rcases Bool.or_eq_false_iff.mp hok with ⟨e3, hok⟩
    rcases Bool.or_eq_false_iff.mp hok with ⟨e4, _⟩
    obtain ⟨h3, h4⟩ := monTail_order_noErr e.cleanup e1 e2 e3 e4
    constructor
    · exact precedes_append (tryEvents e) (workerTail e) _ _ hsess rfl rfl
        (by rw [htail]; exact h3)
    · exact precedes_append (tryEvents e) (workerTail e) _ _ hsess rfl rfl
        (by rw [htail]; exact h4)

/-- Claim C6 amended, concrete instance: the happy-path run
unsubscribes before closing and unregisters before releasing, and the
disconnect variant of the run has the same cleanup tail. -/
theorem c6_witness :
    precedes Ev.writeCccdNone Ev.closeDevice (workerTrace envHappy)
    ∧ precedes Ev.unregValueChanged Ev.releaseChar (workerTrace envHappy)
    ∧ workerTail (Env.mk envHappy.phase envHappy.initiallyConnected
        envHappy.notifications true envHappy.cleanup) = workerTail envHappy := by
  have h := c6_cleanup_order envHappy (by decide)
  exact ⟨h.1, (h.2.2.1 (by decide)).1, h.2.2.2 true⟩

/-- Claim C7: every worker execution emits the Stopped status 0 as its
last event before returning, and when the cleanup block raises, the
error is reported via status 98 within the same trace. -/
theorem c7_always_reaches_stopped (e : Env) :
    (workerTrace e).getLast? = some (Ev.status 0)
    ∧ (e.cleanupRaises = true → Ev.status 98 ∈ workerTrace e) := by
  refine ⟨workerTrace_getLast e, fun hr => ?_⟩
  have hmem : Ev.status 98 ∈ cleanupEvents e := stepsRaise_mem98 _ hr
  exact List.mem_append_right _ (List.mem_append_left _ hmem)

/-- Claim C7, concrete instance: a run whose CCCD disable write raises
still ends with status 0, after reporting status 98. -/
theorem c7_witness :
    (workerTrace envWriteNoneFails).getLast? = some (Ev.status 0)
    ∧ Ev.status 98 ∈ workerTrace envWriteNoneFails := by
  have h := c7_always_reaches_stopped envWriteNoneFails
  exact ⟨h.1, h.2 (by decide)⟩

/-! ## Claim theorems: the control surface -/

/-- Claim C4: StartHrMonitoring returns -1 and changes nothing when a
worker thread object exists; otherwise it clears the stop flag, spawns
exactly one worker and returns 0, or returns -2 (after reporting status
99) when thread creation throws; and a second start without an
intervening stop returns -1 and spawns no second worker. -/
theorem c4_start_behavior (s : SysState) (spawnFails : Bool) :
    (s.joinable = true → startHrMonitoring spawnFails s = (-1, s))
    ∧ (s.joinable = false → spawnFails = false →
        startHrMonitoring spawnFails s =
          (0, SysState.mk true true false s.currentState (s.workers + 1)))
    ∧ (s.joinable = false → spawnFails = true →
        startHrMonitoring spawnFails s =
          (-2, SysState.mk s.joinable s.workerAlive false runtimeErrorCode s.workers))
    ∧ (s.joinable = false →
        (startHrMonitoring false ((startHrMonitoring false s).2)).1 = -1
        ∧ ((startHrMonitoring false ((startHrMonitoring false s).2)).2).workers
            = ((startHrMonitoring false s).2).workers) := by
  refine ⟨?_, ?_, ?_, ?_⟩
  · intro hj
    unfold startHrMonitoring
    rw [hj]
    rfl
  · intro hj hs
    unfold startHrMonitoring
    rw [hj, hs]
    rfl
  · intro hj hs
    unfold startHrMonitoring
    rw [hj, hs]
    rfl
  · intro hj
    have h1 : startHrMonitoring false s
        = (0, SysState.mk true true false s.currentState (s.workers + 1)) := by
      unfold startHrMonitoring
      rw [hj]
      rfl
    rw [h1]
    exact ⟨rfl, rfl⟩

/-- Claim C4, concrete instance: from the initial state, start succeeds
and an immediately repeated start is refused without a second spawn. -/
theorem c4_witness :
    (startHrMonitoring false initState).1 = 0
    ∧ (startHrMonitoring false ((startHrMonitoring false initState).2)).1 = -1
    ∧ ((startHrMonitoring false ((startHrMonitoring false initState).2)).2).workers
        = ((startHrMonitoring false initState).2).workers := by
  have h := c4_start_behavior initState false
  refine ⟨?_, (h.2.2.2 rfl).1, (h.2.2.2 rfl).2⟩
  rw [h.2.1 rfl rfl]

/-- Claim C5: StopHrMonitoring returns -1 and changes nothing when no
worker thread object exists; otherwise it sets the stop flag, joins the
worker (after which the worker function is no longer running) and
returns 0, or reports status 98 and returns -2 on a join error. -/
theorem c5_stop_behavior (s : SysState) (e : Env) (joinFails : Bool) :
    (s.joinable = false → stopHrMonitoring joinFails e s = (-1, s))
    ∧ (s.joinable = true → joinFails = false →
        (stopHrMonitoring joinFails e s).1 = 0
        ∧ (stopHrMonitoring joinFails e s).2.joinable = false
        ∧ (stopHrMonitoring joinFails e s).2.shouldStop = true
        ∧ (stopHrMonitoring joinFails e s).2.workerAlive = false)
    ∧ (s.joinable = true → joinFails = true →
        (stopHrMonitoring joinFails e s).1 = -2
        ∧ (stopHrMonitoring joinFails e s).2.currentState = 98) := by
  refine ⟨?_, ?_, ?_⟩
  · intro hj
    unfold stopHrMonitoring
    rw [hj]
    rfl
  · intro hj hf
    unfold stopHrMonitoring
    rw [hj, hf]
    cases hw : s.workerAlive
    · exact ⟨rfl, rfl, rfl, rfl⟩
    · refine ⟨rfl, rfl, ?_, rfl⟩
      show (applyStatuses (SysState.mk true true true s.currentState s.workers)
          (traceStatuses (workerTrace e))).shouldStop = true
      rw [applyStatuses_shouldStop]
  · intro hj ht
    unfold stopHrMonitoring
    rw [hj, ht]
    cases hw : s.workerAlive <;> exact ⟨rfl, rfl⟩

/-- Claim C5, concrete instance: stop with no worker is refused, stop
after a successful start succeeds. -/
theorem c5_witness :
    stopHrMonitoring false envNoDevice initState = (-1, initState)
    ∧ (stopHrMonitoring false envNoDevice ((startHrMonitoring false initState).2)).1 = 0 := by
  have h1 := c5_stop_behavior initState envNoDevice false
  have h2 := c5_stop_behavior ((startHrMonitoring false initState).2) envNoDevice false
  exact ⟨h1.1 rfl, (h2.2.1 (by decide) rfl).1⟩

/-- Claim C8: after a successful start followed by a successful stop,
GetCurrentStatus reads the Stopped code 0 (the worker's final status
report) and no worker remains: the thread object was joined and the
worker function has returned. -/
theorem c8_start_stop_roundtrip (s : SysState) (e : Env) (h : s.joinable = false) :
    (startHrMonitoring false s).1 = 0
    ∧ (stopHrMonitoring false e ((startHrMonitoring false s).2)).1 = 0
    ∧ getCurrentStatus ((stopHrMonitoring false e ((startHrMonitoring false s).2)).2) = 0
    ∧ ((stopHrMonitoring false e ((startHrMonitoring false s).2)).2).joinable = false
    ∧ ((stopHrMonitoring false e ((startHrMonitoring false s).2)).2).workerAlive = false := by
  have h1 : startHrMonitoring false s
      = (0, SysState.mk true true false s.currentState (s.workers + 1)) := by
    unfold startHrMonitoring
    rw [h]
    rfl
  rw [h1]
  refine ⟨rfl, rfl, ?_, rfl, rfl⟩
  show (applyStatuses (SysState.mk true true true s.currentState (s.workers + 1))
      (traceStatuses (workerTrace e))).currentState = 0
  rw [applyStatuses_currentState, workerStatuses_decomp e, foldl_keepLast]

/-- Claim C8, concrete instance: start then stop from the initial state
leaves status 0 and no live worker. -/
theorem c8_witness :
    (startHrMonitoring false initState).1 = 0
    ∧ getCurrentStatus ((stopHrMonitoring false envNoDevice
        ((startHrMonitoring false initState).2)).2) = 0
    ∧ ((stopHrMonitoring false envNoDevice
        ((startHrMonitoring false initState).2)).2).joinable = false := by
  have h := c8_start_stop_roundtrip initState envNoDevice rfl
  exact ⟨h.1, h.2.2.1, h.2.2.2.1⟩

/-- Claim C10: the controller treats "running" as "the thread object is
joinable".  After the worker function returns on its own, start is
still refused with -1 and changes nothing, until a stop call joins the
finished thread and returns 0, after which start succeeds again. -/
theorem c10_running_is_joinable (s : SysState) (e : Env)
    (h : s.joinable = false) (hexit : e.exitsWithoutHostStop = true) :
    (startHrMonitoring false (workerFinish e ((startHrMonitoring false s).2))).1 = -1
    ∧ (startHrMonitoring false (workerFinish e ((startHrMonitoring false s).2))).2
        = workerFinish e ((startHrMonitoring false s).2)
    ∧ (stopHrMonitoring false e (workerFinish e ((startHrMonitoring false s).2))).1 = 0
    ∧ (startHrMonitoring false
        ((stopHrMonitoring false e (workerFinish e ((startHrMonitoring false s).2))).2)).1
        = 0 := by
  have h1 : startHrMonitoring false s
      = (0, SysState.mk true true false s.currentState (s.workers + 1)) := by
    unfold startHrMonitoring
    rw [h]
    rfl
  rw [h1]
  have hwj : (workerFinish e (SysState.mk true true false s.currentState (s.workers + 1))).joinable
      = true := by
    show (applyStatuses (SysState.mk true true false s.currentState (s.workers + 1))
        (traceStatuses (workerTrace e))).joinable = true
    rw [applyStatuses_joinable]
  refine ⟨?_, ?_, ?_, ?_⟩
  · unfold startHrMonitoring
    rw [hwj]
    rfl
  · unfold startHrMonitoring
    rw [hwj]
    rfl
  · unfold stopHrMonitoring
    rw [hwj]
    rfl
  · have hstop : (stopHrMonitoring false e
        (workerFinish e (SysState.mk true true false s.currentState (s.workers + 1)))).2
        = SysState.mk false false true
            (workerFinish e (SysState.mk true true false s.currentState (s.workers + 1))).currentState
            (workerFinish e (SysState.mk true true false s.currentState (s.workers + 1))).workers := by
      unfold stopHrMonitoring
      rw [hwj]
      rfl
    rw [hstop]
    rfl

/-- Claim C10, concrete instance: after the worker exits on its own
(discovery failure), start is refused until stop joins the thread, and
then start succeeds. -/
theorem c10_witness :
    (startHrMonitoring false
        (workerFinish envNoDevice ((startHrMonitoring false initState).2))).1 = -1
    ∧ (startHrMonitoring false
        ((stopHrMonitoring false envNoDevice
          (workerFinish envNoDevice ((startHrMonitoring false initState).2))).2)).1 = 0 := by
  have h := c10_running_is_joinable initState envNoDevice rfl (by decide)
  exact ⟨h.1, h.2.2.2⟩

end BLEHR
